import Mathlib

/-!
Verification development for the BolAPI client library.

The library is a thin HTTP client: an authenticated-request primitive with
transparent token refresh (HTTP 401) and rate-limit backoff (HTTP 429), a
submit/poll/fetch protocol for asynchronous exports and reports, and a set
of endpoint facades that reshape JSON or spreadsheet bodies.

The network is modelled as an oracle: a list of responses consumed in order
by each outgoing request, plus a separate list of token-endpoint responses
consumed by each re-authentication.  Every operation returns, alongside its
result, the trace of observable events (sends, re-authentications, sleeps,
polls, fetches, printed diagnostics) so that temporal properties of the
retry and polling loops can be stated and proved.
-/

/-- Header dictionaries (`self.headers` and per-call overrides), modelled as
association lists with Python `dict.update` semantics on keys. -/
abbrev HeaderList := List (String × String)

/-- Query or body parameters of a request (`data`); opaque to the client. -/
abbrev QueryData := List (String × String)

/-- Python `base.copy()` followed by `base.update(over)`: per key, `over`
wins; all keys of both dictionaries are present. -/
def hmerge (base over : HeaderList) : HeaderList :=
  base.filter (fun p => !(over.any (fun q => q.1 == p.1))) ++ over

/-- A response of the remote service to one sent request: its HTTP status
code and its (opaque) body. -/
structure Resp where
  status : Nat
  body : String
deriving DecidableEq

/-- A response of the token endpoint (`login.bol.com/token`). -/
structure TokResp where
  status : Nat
  access_token : String
deriving DecidableEq

/-- The mutable state of one client instance: its header dictionary
(`self.headers`, holding the bearer token under key `Authorization`) and the
validity flag (`self.valid`, `None` before the first authentication). -/
structure ClientState where
  headers : HeaderList
  valid : Option Bool
deriving DecidableEq

/-- Observable events of the authenticated-request primitive, in order:
a request sent (with the effective parameters used on the wire and the
status the oracle answered), a call to `get_access_token` (with whether the
token endpoint answered 200), and a `time.sleep` of the given seconds. -/
inductive Event where
  | send (method url : String) (data : Option QueryData)
      (headers : HeaderList) (status : Nat) : Event
  | reauth (success : Bool) : Event
  | sleep (secs : Nat) : Event
deriving DecidableEq

namespace BolAPI

/-- `BolAPI.get_access_token`: on a 200 answer of the token endpoint the
bearer token is written into `self.headers` under `Authorization` and the
session is marked valid; on any other status the session is marked invalid
and the headers are left unchanged. -/
def get_access_token (st : ClientState) (t : TokResp) : ClientState :=
  if t.status = 200 then
    { headers := hmerge st.headers [("Authorization", "Bearer " ++ t.access_token)],
      valid := some true }
  else
    { st with valid := some false }

/-- The effective header dictionary used on the wire: per-call overrides are
merged over `self.headers` (override wins per key); with no overrides the
request uses `self.headers` itself. -/
def effHeaders (st : ClientState) : Option HeaderList → HeaderList
  | some h => hmerge st.headers h
  | none => st.headers

/-- `BolAPI.request`, with the network as an oracle.  `net` answers the
successive sends to `url`; `tok` answers the successive re-authentications.
On 401 the client calls `get_access_token` once, then re-issues the request
(when the original call passed no overrides, the retried call passes the
`self.headers` dictionary itself, which aliasing lets the refresh update);
on 429 it sleeps 1550 seconds and re-issues the request; otherwise it
returns the status code and response.  An exhausted oracle ends the trace
with no result. -/
def request : ClientState → String → String → Option QueryData → Option HeaderList →
    List Resp → List TokResp → List Event × Option (Nat × Resp)
  | _, _, _, _, _, [], _ => ([], none)
  | st, method, url, data, hdrs, r :: net, tok =>
    let effective := effHeaders st hdrs
    if r.status = 401 then
      match tok with
      | [] => ([Event.send method url data effective r.status], none)
      | t :: tok' =>
        let st' := get_access_token st t
        let passed := match hdrs with
          | some _ => effective
          | none => st'.headers
        let res := request st' method url data (some passed) net tok'
        (Event.send method url data effective r.status ::
          Event.reauth (t.status == 200) :: res.1, res.2)
    else if r.status = 429 then
      let passed := match hdrs with
        | some _ => effective
        | none => st.headers
      let res := request st method url data (some passed) net tok
      (Event.send method url data effective r.status :: Event.sleep 1550 :: res.1, res.2)
    else
      ([Event.send method url data effective r.status], some (r.status, r))

end BolAPI

/-- Number of requests sent in a trace. -/
def countSend : List Event → Nat
  | [] => 0
  | Event.send _ _ _ _ _ :: es => countSend es + 1
  | _ :: es => countSend es

/-- Number of re-authentications (token-refresh attempts) in a trace. -/
def countReauth : List Event → Nat
  | [] => 0
  | Event.reauth _ :: es => countReauth es + 1
  | _ :: es => countReauth es

/-- Number of successful re-authentications in a trace. -/
def countReauthSucc : List Event → Nat
  | [] => 0
  | Event.reauth true :: es => countReauthSucc es + 1
  | _ :: es => countReauthSucc es

/-- Number of 1550-second backoff sleeps in a trace. -/
def countSleep1550 : List Event → Nat
  | [] => 0
  | Event.sleep 1550 :: es => countSleep1550 es + 1
  | _ :: es => countSleep1550 es

/-- Retry discipline of a request trace: a 401-rejected send is followed by
exactly one re-authentication and then by the re-issued send (or the trace
ends); a 429-rejected send is followed by exactly one 1550-second sleep and
then by the re-issued send; any other send ends the trace with its result;
re-authentications and sleeps occur nowhere else. -/
def traceOK : List Event → Bool
  | [] => true
  | Event.send _ _ _ _ s :: rest =>
    if s = 401 then
      match rest with
      | [] => true
      | Event.reauth _ :: rest2 => traceOK rest2
      | _ => false
    else if s = 429 then
      match rest with
      | Event.sleep n :: rest2 => n == 1550 && traceOK rest2
      | _ => false
    else rest.isEmpty
  | _ :: _ => false

/-- Holds when every re-issue of a rejected request is preceded by a
successful token refresh: each re-authentication event that is followed by
a further send must have succeeded. -/
def retriesRefreshed : List Event → Bool
  | [] => true
  | Event.reauth b :: rest =>
    (match rest with
     | Event.send _ _ _ _ _ :: _ => b
     | _ => true) && retriesRefreshed rest
  | _ :: rest => retriesRefreshed rest

/-- The trace of a pure rate-limit run: one send per 429 answer, each
followed by the fixed 1550-second sleep, all sends with identical method,
url, data and headers, ending in the send answered by `final`. -/
def retryTrace (method url : String) (data : Option QueryData) (headers : HeaderList) :
    List Nat → Nat → List Event
  | [], final => [Event.send method url data headers final]
  | c :: cs, final =>
    Event.send method url data headers c :: Event.sleep 1550 ::
      retryTrace method url data headers cs final

/-!
The asynchronous export/report protocol: submit a job (POST, expecting 202),
poll the shared process-status resource while its body says PENDING with a
60-second sleep between polls, and on SUCCESS fetch the produced resource.
The facade methods `request_all_offers`, `request_bulk_report` and
`request_campaigns_report` each inline this loop; the oracle gives the
submit response, the successive process-status bodies and the fetch
response.
-/

/-- Body of the submit response: its status code and the `processStatusId`
field read on 202. -/
structure SubmitResp where
  status : Nat
  processStatusId : String
deriving DecidableEq

/-- Body of one answer of the shared process-status resource: the job
`status` string and the `entityId` read on SUCCESS. -/
structure ProcBody where
  status : String
  entityId : String
deriving DecidableEq

/-- Response to the result fetch of the offer export: status code and the
UTF-8 decoded CSV content. -/
structure FetchResp where
  status : Nat
  content : String
deriving DecidableEq

/-- Response to the result fetch of an advertising report: status code and
the signed download `url` field read on 200. -/
structure BulkFetchResp where
  status : Nat
  url : String
deriving DecidableEq

/-- Observable events of one facade call: the submit POST, a GET of the
process-status resource, a `time.sleep`, the result-fetch GET, the
unauthenticated download GET of a signed url, and a printed ERROR
diagnostic. -/
inductive JobEvent where
  | submit : JobEvent
  | poll : JobEvent
  | sleep (secs : Nat) : JobEvent
  | fetch : JobEvent
  | download : JobEvent
  | diag (msg : String) : JobEvent
deriving DecidableEq

/-- The polling loop shared by the three async facades: one unconditional
first poll, then while the body says PENDING, sleep 60 seconds and poll
again.  Returns the trace of polls and sleeps and the first non-PENDING
body (none when the oracle is exhausted while still PENDING). -/
def pollLoop : List ProcBody → List JobEvent × Option ProcBody
  | [] => ([], none)
  | p :: ps =>
    if p.status = "PENDING" then
      let res := pollLoop ps
      (JobEvent.poll :: JobEvent.sleep 60 :: res.1, res.2)
    else
      ([JobEvent.poll], some p)

/-- The poll/sleep trace of a loop that sees `n` PENDING answers and then a
terminal one: `n + 1` polls with a 60-second sleep between consecutive
polls. -/
def pollTrace : Nat → List JobEvent
  | 0 => [JobEvent.poll]
  | n + 1 => JobEvent.poll :: JobEvent.sleep 60 :: pollTrace n

/-- Result of `BolRetailerAPI.request_all_offers`: the decoded CSV character
stream on success, the raw submit response when the submit is rejected, or
Python's implicit `None`. -/
inductive OffersResult where
  | csvStream (content : String) : OffersResult
  | response (r : SubmitResp) : OffersResult
  | nothing : OffersResult
deriving DecidableEq

/-- Result of an advertising report facade: the CSV table read from the
downloaded content, or Python's implicit `None`. -/
inductive ReportResult where
  | table (csvContent : String) : ReportResult
  | nothing : ReportResult
deriving DecidableEq

namespace BolRetailerAPI

/-- `BolRetailerAPI.request_all_offers`: submit the offer-export job; on
202, poll the process status; on SUCCESS fetch the export and return the
decoded stream (printing a diagnostic and returning None when the fetch is
not 200); on a non-SUCCESS terminal status print a diagnostic and return
None; on a non-202 submit print a diagnostic and return the response. -/
def request_all_offers (submit : SubmitResp) (polls : List ProcBody)
    (fetchR : FetchResp) : List JobEvent × OffersResult :=
  if submit.status = 202 then
    let pl := pollLoop polls
    match pl.2 with
    | none => (JobEvent.submit :: pl.1, OffersResult.nothing)
    | some p =>
      if p.status = "SUCCESS" then
        if fetchR.status = 200 then
          (JobEvent.submit :: pl.1 ++ [JobEvent.fetch],
            OffersResult.csvStream fetchR.content)
        else
          (JobEvent.submit :: pl.1 ++
            [JobEvent.fetch, JobEvent.diag "failed to retrieve offer export"],
            OffersResult.nothing)
      else
        (JobEvent.submit :: pl.1 ++ [JobEvent.diag "failed to process offer export"],
          OffersResult.nothing)
  else
    ([JobEvent.submit, JobEvent.diag "failed to request offer export"],
      OffersResult.response submit)

end BolRetailerAPI

namespace BolAdvertisingAPI

/-- `BolAdvertisingAPI.request_bulk_report` (v11): submit the bulk-report
job; on 202 poll the process status; on SUCCESS fetch the report resource
and, when that fetch is 200, download the signed url and return the parsed
table (printing a diagnostic and returning None when the fetch is not 200).
A non-SUCCESS terminal job status falls through with no diagnostic and
returns None; a non-202 submit prints a diagnostic and returns None. -/
def request_bulk_report (submit : SubmitResp) (polls : List ProcBody)
    (fetchR : BulkFetchResp) (downloaded : String) : List JobEvent × ReportResult :=
  if submit.status = 202 then
    let pl := pollLoop polls
    match pl.2 with
    | none => (JobEvent.submit :: pl.1, ReportResult.nothing)
    | some p =>
      if p.status = "SUCCESS" then
        if fetchR.status = 200 then
          (JobEvent.submit :: pl.1 ++ [JobEvent.fetch, JobEvent.download],
            ReportResult.table downloaded)
        else
          (JobEvent.submit :: pl.1 ++
            [JobEvent.fetch, JobEvent.diag "failed to retrieve campaign performance"],
            ReportResult.nothing)
      else
        (JobEvent.submit :: pl.1, ReportResult.nothing)
  else
    ([JobEvent.submit, JobEvent.diag "failed to request campaign performance export"],
      ReportResult.nothing)

end BolAdvertisingAPI

namespace BolAdvertisingAPIv10

/-- `BolAdvertisingAPIv10.request_campaigns_report`: identical control flow
to the v11 bulk report against the campaign-performance paths; in
particular a non-SUCCESS terminal job status likewise falls through with no
diagnostic and returns None. -/
def request_campaigns_report (submit : SubmitResp) (polls : List ProcBody)
    (fetchR : BulkFetchResp) (downloaded : String) : List JobEvent × ReportResult :=
  if submit.status = 202 then
    let pl := pollLoop polls
    match pl.2 with
    | none => (JobEvent.submit :: pl.1, ReportResult.nothing)
    | some p =>
      if p.status = "SUCCESS" then
        if fetchR.status = 200 then
          (JobEvent.submit :: pl.1 ++ [JobEvent.fetch, JobEvent.download],
            ReportResult.table downloaded)
        else
          (JobEvent.submit :: pl.1 ++
            [JobEvent.fetch, JobEvent.diag "failed to retrieve campaign performance"],
            ReportResult.nothing)
      else
        (JobEvent.submit :: pl.1, ReportResult.nothing)
  else
    ([JobEvent.submit, JobEvent.diag "failed to request campaign performance export"],
      ReportResult.nothing)

end BolAdvertisingAPIv10

/-- Number of polls of the process-status resource in a facade trace. -/
def countPoll : List JobEvent → Nat
  | [] => 0
  | JobEvent.poll :: es => countPoll es + 1
  | _ :: es => countPoll es

/-- Number of result-fetch requests in a facade trace. -/
def countFetch : List JobEvent → Nat
  | [] => 0
  | JobEvent.fetch :: es => countFetch es + 1
  | _ :: es => countFetch es

/-- Number of signed-url downloads in a facade trace. -/
def countDownload : List JobEvent → Nat
  | [] => 0
  | JobEvent.download :: es => countDownload es + 1
  | _ :: es => countDownload es

/-- Number of printed diagnostics in a facade trace. -/
def countDiag : List JobEvent → Nat
  | [] => 0
  | JobEvent.diag _ :: es => countDiag es + 1
  | _ :: es => countDiag es

/-- Number of job submissions in a facade trace. -/
def countSubmit : List JobEvent → Nat
  | [] => 0
  | JobEvent.submit :: es => countSubmit es + 1
  | _ :: es => countSubmit es

/-!
Synchronous facade endpoints: invoice specification (spreadsheet reshaping),
product ratings (rating histogram) and offer insights (time series with
formatted date labels).
-/

/-- A tabular value as produced by the spreadsheet reader: named columns and
a list of rows, row labels being their positions. -/
structure DataFrame where
  columns : List String
  rows : List (List String)
deriving DecidableEq

namespace BolRetailerAPI

/-- `BolRetailerAPI.request_invoice_specification`, given the status of the
GET and the table the spreadsheet reader produced from the body: on 200,
rename the columns to the cells of row 6, drop rows 0 through 6 and reset
the index; indexing row 6 of a shorter table raises; on any other status
print a diagnostic and return None. -/
def request_invoice_specification (status : Nat) (df : DataFrame) : Option DataFrame :=
  if status = 200 then
    match df.rows.get? 6 with
    | some hdr => some { columns := hdr, rows := df.rows.drop 7 }
    | none => none
  else
    none

end BolRetailerAPI

/-- A key of a Python dictionary as returned by the facades: a string or an
integer. -/
inductive PyKey where
  | str (s : String) : PyKey
  | int (n : Int) : PyKey
deriving DecidableEq

/-- A value of a Python dictionary as returned by the facades: an integer
or a list of integers. -/
inductive PyVal where
  | int (n : Int) : PyVal
  | list (l : List Int) : PyVal
deriving DecidableEq

/-- One element of the `ratings` list of the ratings response body. -/
structure RatingEntry where
  rating : Int
  count : Int
deriving DecidableEq

namespace BolRetailerAPI

/-- The loop of `request_product_ratings`: starting from the two empty
lists, append each entry's rating to the `Rating` list and its count to the
`Count` list. -/
def ratingsStep (d : List Int × List Int) (e : RatingEntry) : List Int × List Int :=
  (d.1 ++ [e.rating], d.2 ++ [e.count])

/-- `BolRetailerAPI.request_product_ratings`, given the GET status and the
`ratings` list of the body: the returned dictionary always has exactly the
two keys `Rating` and `Count`; on 200 they hold the listed ratings and
counts in order, otherwise both hold the empty list. -/
def request_product_ratings (status : Nat) (ratings : List RatingEntry) :
    List (PyKey × PyVal) :=
  let init : List Int × List Int := ([], [])
  let d := if status = 200 then ratings.foldl ratingsStep init else init
  [(PyKey.str "Rating", PyVal.list d.1), (PyKey.str "Count", PyVal.list d.2)]

end BolRetailerAPI

/-- The `period` object of one period entry of the insights body. -/
structure PeriodDate where
  day : Nat
  month : Nat
  year : Nat
deriving DecidableEq

/-- One element of the `countries` list of a period entry. -/
structure CountryEntry where
  countryCode : String
  value : Int
deriving DecidableEq

/-- One element of `offerInsights[0].periods` of the insights body. -/
structure PeriodEntry where
  period : PeriodDate
  countries : List CountryEntry
deriving DecidableEq

/-- The day-month-year date label built for `period = DAY`. -/
def dayLabel (d : PeriodDate) : String :=
  toString d.day ++ "-" ++ toString d.month ++ "-" ++ toString d.year

/-- The month-year date label built for `period = MONTH`. -/
def monthLabel (d : PeriodDate) : String :=
  toString d.month ++ "-" ++ toString d.year

/-- The date label assigned by the if/elif chain of
`request_offer_insights`: day-month-year for DAY, month-year for MONTH, the
year alone for YEAR, and no assignment at all for any other period (the
loop variable `date_str` stays unbound). -/
def formatDate (period : String) (d : PeriodDate) : Option String :=
  if period = "DAY" then some (dayLabel d)
  else if period = "MONTH" then some (monthLabel d)
  else if period = "YEAR" then some (toString d.year)
  else none

/-- The values appended for one period entry: the `value` of each country
object whose `countryCode` equals the requested country. -/
def collectValues (country : String) (cs : List CountryEntry) : List Int :=
  (cs.filter (fun c => c.countryCode == country)).map (fun c => c.value)

/-- All values collected over the period entries, in order. -/
def valuesOf (country : String) : List PeriodEntry → List Int
  | [] => []
  | e :: es => collectValues country e.countries ++ valuesOf country es

/-- The date/value loop of `request_offer_insights`: for each period entry,
format its date (none models the unbound `date_str`, which raises at the
first append since the period argument is fixed over the loop) and collect
the matching countries' values. -/
def insightsLoop (period country : String) :
    List PeriodEntry → Option (List String × List Int)
  | [] => some ([], [])
  | e :: es =>
    match formatDate period e.period with
    | none => none
    | some d =>
      match insightsLoop period country es with
      | none => none
      | some r => some (d :: r.1, collectValues country e.countries ++ r.2)

/-- Result of `request_offer_insights`: the bare scalar when exactly one
period was requested; otherwise the dictionary of the date-label list and
the value list under the name-dependent key; the unbound `date_str` error
for an unhandled period; an index error when `values` is empty and
`values[0]` is taken; None (after a printed diagnostic) on a non-200
status. -/
inductive InsightsResult where
  | scalar (v : Int) : InsightsResult
  | series (dateKey valueKey : String) (dates : List String) (values : List Int) :
      InsightsResult
  | nameError : InsightsResult
  | indexError : InsightsResult
  | failed : InsightsResult
deriving DecidableEq

namespace BolRetailerAPI

/-- `BolRetailerAPI.request_offer_insights`, given the GET status and the
period entries of the body: on 200, run the date/value loop; then return
`values[0]` when `no_periods = 1`, else the two parallel sequences under
`Date` and either `Visits` or `Buy-Box %` depending on the requested
insight name. -/
def request_offer_insights (name period : String) (no_periods : Nat)
    (country : String) (status : Nat) (entries : List PeriodEntry) : InsightsResult :=
  if status = 200 then
    match insightsLoop period country entries with
    | none => InsightsResult.nameError
    | some r =>
      if no_periods = 1 then
        match r.2 with
        | v :: _ => InsightsResult.scalar v
        | [] => InsightsResult.indexError
      else
        if name = "PRODUCT_VISITS" then
          InsightsResult.series "Date" "Visits" r.1 r.2
        else
          InsightsResult.series "Date" "Buy-Box %" r.1 r.2
  else
    InsightsResult.failed

end BolRetailerAPI

/-- A concrete client state for concrete executions. -/
def st0 : ClientState :=
  { headers := [("Accept", "application/json")], valid := some true }

/-- The oracle of a service answering `n` consecutive 401s and then 200. -/
def net401 (n : Nat) : List Resp :=
  List.replicate n ⟨401, "denied"⟩ ++ [⟨200, "ok"⟩]

/-- The oracle of a token endpoint rejecting every refresh. -/
def tokFail (n : Nat) : List TokResp :=
  List.replicate n ⟨400, "bad"⟩

/-- The facade trace of a PENDING, PENDING, SUCCESS polling run: exactly
three polls of the process-status resource, a 60-second sleep between
consecutive polls, and the result fetch issued only after the third
(SUCCESS) poll. -/
def fetchAfterThreePolls (tr : List JobEvent) : Prop :=
  countPoll tr = 3 ∧
  tr.take 6 = JobEvent.submit :: pollTrace 2 ∧
  (tr.drop 6).head? = some JobEvent.fetch ∧
  countFetch tr = 1

/-!
Theorems.  Helper lemmas are shared; each claim has exactly one theorem
(with a witness when the theorem has hypotheses) and, for corrected claims,
one counterexample.
-/

theorem hmerge_eq (b over : HeaderList) :
    hmerge b over = b.filter (fun p => !(over.any (fun q => q.1 == p.1))) ++ over := rfl

theorem hmerge_key_mem (b h : HeaderList) (p : String × String) (hp : p ∈ b) :
    (hmerge b h).any (fun q => q.1 == p.1) = true := by
  by_cases hb : h.any (fun q => q.1 == p.1) = true
  · rcases List.any_eq_true.mp hb with ⟨q, hq, hq1⟩
    exact List.any_eq_true.mpr ⟨q, List.mem_append_right _ hq, hq1⟩
  · apply List.any_eq_true.mpr
    refine ⟨p, ?_, by simp⟩
    rw [hmerge_eq]
    apply List.mem_append_left
    apply List.mem_filter.mpr
    refine ⟨hp, ?_⟩
    simp only [Bool.not_eq_true] at hb
    simp [hb]

theorem hmerge_self (b : HeaderList) : hmerge b b = b := by
  have hf : b.filter (fun p => !(b.any (fun q => q.1 == p.1))) = [] := by
    apply List.filter_eq_nil_iff.mpr
    intro p hp
    have hany : (b.any fun q => q.1 == p.1) = true :=
      List.any_eq_true.mpr ⟨p, hp, by simp⟩
    simp [hany]
  rw [hmerge_eq, hf, List.nil_append]

theorem hmerge_absorb (b h : HeaderList) : hmerge b (hmerge b h) = hmerge b h := by
  have hf : b.filter (fun p => !((hmerge b h).any (fun q => q.1 == p.1))) = [] := by
    apply List.filter_eq_nil_iff.mpr
    intro p hp
    have hany := hmerge_key_mem b h p hp
    simp [hany]
  rw [hmerge_eq, hf, List.nil_append]

theorem traceOK_request (net : List Resp) : ∀ (tok : List TokResp) (st : ClientState)
    (m u : String) (d : Option QueryData) (hdrs : Option HeaderList),
    traceOK (BolAPI.request st m u d hdrs net tok).1 = true := by
  induction net with
  | nil => intro tok st m u d hdrs; simp [BolAPI.request, traceOK]
  | cons r net ih =>
    intro tok st m u d hdrs
    by_cases h1 : r.status = 401
    · cases tok with
      | nil => simp [BolAPI.request, h1, traceOK]
      | cons t tok' => simp [BolAPI.request, h1, traceOK, ih]
    · by_cases h2 : r.status = 429
      · simp [BolAPI.request, h1, h2, traceOK, ih]
      · simp [BolAPI.request, h1, h2, traceOK]

theorem request_401_fail_aux (n : Nat) : ∀ (st : ClientState) (m u : String)
    (d : Option QueryData) (E : HeaderList),
    countReauth (BolAPI.request st m u d (some E) (net401 n) (tokFail n)).1 = n ∧
    countReauthSucc (BolAPI.request st m u d (some E) (net401 n) (tokFail n)).1 = 0 ∧
    countSend (BolAPI.request st m u d (some E) (net401 n) (tokFail n)).1 = n + 1 := by
  induction n with
  | zero =>
    intro st m u d E
    simp [net401, tokFail, BolAPI.request, countReauth, countReauthSucc, countSend]
  | succ n ih =>
    intro st m u d E
    simp only [net401, tokFail, List.replicate_succ, List.cons_append] at ih ⊢
    simp [BolAPI.request, BolAPI.get_access_token, countReauth, countReauthSucc,
      countSend, ih]


/-- Claim C1, counterexample: an execution exists (service answers 401, the
token endpoint rejects the refresh) in which the 401-rejected request is
re-issued with no intervening successful token refresh — only a failed
refresh attempt stands between the rejection and the retry. -/
theorem claim_C1_counterexample :
    retriesRefreshed (BolAPI.request st0 "GET" "retailer/offers" none none
      [⟨401, "denied"⟩, ⟨200, "ok"⟩] [⟨400, "bad"⟩]).1 = false := by decide

/-- Claim C1, amended: every request the service rejects with 401 triggers
exactly one re-authentication attempt before the request is re-issued (and
1550-second sleeps likewise separate exactly the 429 rejections), but the
refresh need not succeed: for every n there is an execution — n 401 answers
with a persistently failing token endpoint — in which the request is
re-issued n times with n failed refresh attempts and no successful refresh
at all, so 401-rejected requests can be retried unboundedly without an
intervening successful token refresh. -/
theorem claim_C1_theorem :
    (∀ (net : List Resp) (tok : List TokResp) (st : ClientState) (m u : String)
      (d : Option QueryData) (hdrs : Option HeaderList),
      traceOK (BolAPI.request st m u d hdrs net tok).1 = true) ∧
    (∀ (st : ClientState) (m u : String) (d : Option QueryData) (n : Nat),
      countReauth (BolAPI.request st m u d none (net401 n) (tokFail n)).1 = n ∧
      countReauthSucc (BolAPI.request st m u d none (net401 n) (tokFail n)).1 = 0 ∧
      countSend (BolAPI.request st m u d none (net401 n) (tokFail n)).1 = n + 1) := by
  constructor
  · intro net tok st m u d hdrs
    exact traceOK_request net tok st m u d hdrs
  · intro st m u d n
    cases n with
    | zero =>
      simp [net401, tokFail, BolAPI.request, countReauth, countReauthSucc, countSend]
    | succ n =>
      have aux := request_401_fail_aux n
        { headers := st.headers, valid := some false } m u d st.headers
      simp only [net401, tokFail] at aux
      simp only [net401, tokFail, List.replicate_succ, List.cons_append]
      simp [BolAPI.request, BolAPI.get_access_token, countReauth, countReauthSucc,
        countSend, aux]

/-- Claim C2: when the oracle answers one 401 and then a normal response,
the client re-authenticates exactly once, returns the normal response's
status and body, and that result equals the result of the same call against
the oracle without the 401 (the token valid from the start), whatever the
token oracle of the latter. -/
theorem claim_C2_theorem (st : ClientState) (m u : String) (d : Option QueryData)
    (hdrs : Option HeaderList) (r1 r2 : Resp) (rest : List Resp)
    (t : TokResp) (tok tok2 : List TokResp)
    (h1 : r1.status = 401) (h2 : r2.status ≠ 401) (h3 : r2.status ≠ 429) :
    countReauth (BolAPI.request st m u d hdrs (r1 :: r2 :: rest) (t :: tok)).1 = 1 ∧
    (BolAPI.request st m u d hdrs (r1 :: r2 :: rest) (t :: tok)).2 =
      some (r2.status, r2) ∧
    (BolAPI.request st m u d hdrs (r1 :: r2 :: rest) (t :: tok)).2 =
      (BolAPI.request st m u d hdrs (r2 :: rest) tok2).2 := by
  simp [BolAPI.request, h1, h2, h3, countReauth]

/-- Claim C2, witness at a concrete call. -/
theorem claim_C2_witness :
    countReauth (BolAPI.request st0 "GET" "retailer/offers" none none
      [⟨401, "denied"⟩, ⟨200, "ok"⟩] [⟨200, "tok"⟩]).1 = 1 ∧
    (BolAPI.request st0 "GET" "retailer/offers" none none
      [⟨401, "denied"⟩, ⟨200, "ok"⟩] [⟨200, "tok"⟩]).2 = some (200, ⟨200, "ok"⟩) ∧
    (BolAPI.request st0 "GET" "retailer/offers" none none
      [⟨401, "denied"⟩, ⟨200, "ok"⟩] [⟨200, "tok"⟩]).2 =
    (BolAPI.request st0 "GET" "retailer/offers" none none [⟨200, "ok"⟩] []).2 :=
  claim_C2_theorem st0 "GET" "retailer/offers" none none ⟨401, "denied"⟩ ⟨200, "ok"⟩ []
    ⟨200, "tok"⟩ [] [] rfl (by decide) (by decide)

theorem request_429_aux (rs : List Resp) : ∀ (rf : Resp) (st : ClientState)
    (m u : String) (d : Option QueryData) (E : HeaderList) (tok : List TokResp),
    hmerge st.headers E = E →
    (∀ r ∈ rs, r.status = 429) → rf.status ≠ 401 → rf.status ≠ 429 →
    BolAPI.request st m u d (some E) (rs ++ [rf]) tok =
      (retryTrace m u d E (rs.map Resp.status) rf.status, some (rf.status, rf)) := by
  induction rs with
  | nil =>
    intro rf st m u d E tok hE h429 h1 h2
    simp [BolAPI.request, BolAPI.effHeaders, h1, h2, retryTrace, hE]
  | cons r rs ih =>
    intro rf st m u d E tok hE h429 h1 h2
    have hr : r.status = 429 := h429 r (by simp)
    have hr1 : ¬ r.status = 401 := by simp [hr]
    have ih' := ih rf st m u d E tok hE (fun x hx => h429 x (by simp [hx])) h1 h2
    simp [BolAPI.request, BolAPI.effHeaders, hr, hr1, retryTrace, hE, ih']

theorem countSend_retryTrace (m u : String) (d : Option QueryData) (E : HeaderList)
    (cs : List Nat) (f : Nat) : countSend (retryTrace m u d E cs f) = cs.length + 1 := by
  induction cs with
  | nil => simp [retryTrace, countSend]
  | cons c cs ih => simp [retryTrace, countSend, ih]

theorem countSleep1550_retryTrace (m u : String) (d : Option QueryData) (E : HeaderList)
    (cs : List Nat) (f : Nat) : countSleep1550 (retryTrace m u d E cs f) = cs.length := by
  induction cs with
  | nil => simp [retryTrace, countSleep1550]
  | cons c cs ih => simp [retryTrace, countSleep1550, ih]

theorem countReauth_retryTrace (m u : String) (d : Option QueryData) (E : HeaderList)
    (cs : List Nat) (f : Nat) : countReauth (retryTrace m u d E cs f) = 0 := by
  induction cs with
  | nil => simp [retryTrace, countReauth]
  | cons c cs ih => simp [retryTrace, countReauth, ih]

/-- Claim C3: when the oracle answers n consecutive 429s and then a
non-429 (and non-401) response, the whole trace is the n rejected sends,
each followed by the fixed 1550-second sleep, then the final send — every
send carrying the same method, url, data and effective headers — the call
returns the final response, and the counts confirm n retries, n backoff
sleeps and no re-authentication; `rs` is unbounded, so there is no retry
ceiling. -/
theorem claim_C3_theorem (st : ClientState) (m u : String) (d : Option QueryData)
    (hdrs : Option HeaderList) (rs : List Resp) (rf : Resp) (tok : List TokResp)
    (h429 : ∀ r ∈ rs, r.status = 429) (h1 : rf.status ≠ 401) (h2 : rf.status ≠ 429) :
    (BolAPI.request st m u d hdrs (rs ++ [rf]) tok).1 =
      retryTrace m u d (BolAPI.effHeaders st hdrs) (rs.map Resp.status) rf.status ∧
    (BolAPI.request st m u d hdrs (rs ++ [rf]) tok).2 = some (rf.status, rf) ∧
    countSend (BolAPI.request st m u d hdrs (rs ++ [rf]) tok).1 = rs.length + 1 ∧
    countSleep1550 (BolAPI.request st m u d hdrs (rs ++ [rf]) tok).1 = rs.length ∧
    countReauth (BolAPI.request st m u d hdrs (rs ++ [rf]) tok).1 = 0 := by
  have key : BolAPI.request st m u d hdrs (rs ++ [rf]) tok =
      (retryTrace m u d (BolAPI.effHeaders st hdrs) (rs.map Resp.status) rf.status,
        some (rf.status, rf)) := by
    cases rs with
    | nil => simp [BolAPI.request, h1, h2, retryTrace]
    | cons r rs =>
      have hr : r.status = 429 := h429 r (by simp)
      have hr1 : ¬ r.status = 401 := by simp [hr]
      cases hdrs with
      | none =>
        have aux := request_429_aux rs rf st m u d st.headers tok (hmerge_self _)
          (fun x hx => h429 x (by simp [hx])) h1 h2
        simp [BolAPI.request, BolAPI.effHeaders, hr, hr1, retryTrace, aux]
      | some h =>
        have aux := request_429_aux rs rf st m u d (hmerge st.headers h) tok
          (hmerge_absorb _ _) (fun x hx => h429 x (by simp [hx])) h1 h2
        simp [BolAPI.request, BolAPI.effHeaders, hr, hr1, retryTrace, aux]
  rw [key]
  refine ⟨rfl, rfl, ?_, ?_, ?_⟩
  · rw [countSend_retryTrace]; simp
  · rw [countSleep1550_retryTrace]; simp
  · rw [countReauth_retryTrace]

/-- Claim C3, witness at a concrete call with two 429 answers. -/
theorem claim_C3_witness :
    (BolAPI.request st0 "GET" "retailer/offers" none (some [("Accept", "text/csv")])
      [⟨429, "slow"⟩, ⟨429, "slow"⟩, ⟨200, "ok"⟩] []).1 =
      retryTrace "GET" "retailer/offers" none
        (BolAPI.effHeaders st0 (some [("Accept", "text/csv")])) [429, 429] 200 ∧
    (BolAPI.request st0 "GET" "retailer/offers" none (some [("Accept", "text/csv")])
      [⟨429, "slow"⟩, ⟨429, "slow"⟩, ⟨200, "ok"⟩] []).2 = some (200, ⟨200, "ok"⟩) ∧
    countSend (BolAPI.request st0 "GET" "retailer/offers" none
      (some [("Accept", "text/csv")])
      [⟨429, "slow"⟩, ⟨429, "slow"⟩, ⟨200, "ok"⟩] []).1 = 3 ∧
    countSleep1550 (BolAPI.request st0 "GET" "retailer/offers" none
      (some [("Accept", "text/csv")])
      [⟨429, "slow"⟩, ⟨429, "slow"⟩, ⟨200, "ok"⟩] []).1 = 2 ∧
    countReauth (BolAPI.request st0 "GET" "retailer/offers" none
      (some [("Accept", "text/csv")])
      [⟨429, "slow"⟩, ⟨429, "slow"⟩, ⟨200, "ok"⟩] []).1 = 0 :=
  claim_C3_theorem st0 "GET" "retailer/offers" none (some [("Accept", "text/csv")])
    [⟨429, "slow"⟩, ⟨429, "slow"⟩] ⟨200, "ok"⟩ [] (by decide) (by decide) (by decide)

theorem pollLoop_spec (ps : List ProcBody) (p : ProcBody)
    (hps : ∀ q ∈ ps, q.status = "PENDING") (hp : p.status ≠ "PENDING") :
    pollLoop (ps ++ [p]) = (pollTrace ps.length, some p) := by
  induction ps with
  | nil => simp [pollLoop, hp, pollTrace]
  | cons q qs ih =>
    have hq : q.status = "PENDING" := hps q (by simp)
    have ih' := ih (fun x hx => hps x (by simp [hx]))
    simp [pollLoop, hq, pollTrace, ih']

theorem countFetch_append (a b : List JobEvent) :
    countFetch (a ++ b) = countFetch a + countFetch b := by
  induction a with
  | nil => simp [countFetch]
  | cons x xs ih => cases x <;> simp [countFetch, ih, Nat.add_right_comm]

theorem countDownload_append (a b : List JobEvent) :
    countDownload (a ++ b) = countDownload a + countDownload b := by
  induction a with
  | nil => simp [countDownload]
  | cons x xs ih => cases x <;> simp [countDownload, ih, Nat.add_right_comm]

theorem countFetch_pollTrace (n : Nat) : countFetch (pollTrace n) = 0 := by
  induction n with
  | zero => simp [pollTrace, countFetch]
  | succ n ih => simp [pollTrace, countFetch, ih]

theorem countDownload_pollTrace (n : Nat) : countDownload (pollTrace n) = 0 := by
  induction n with
  | zero => simp [pollTrace, countDownload]
  | succ n ih => simp [pollTrace, countDownload, ih]

theorem countDiag_pollTrace (n : Nat) : countDiag (pollTrace n) = 0 := by
  induction n with
  | zero => simp [pollTrace, countDiag]
  | succ n ih => simp [pollTrace, countDiag, ih]

/-- Claim C4: for the offer export and the bulk advertising report, a
submit answered 202 followed by process statuses PENDING, PENDING, SUCCESS
yields exactly three polls of the process-status resource, a fixed
60-second sleep between consecutive polls, and the result fetch only after
the SUCCESS answer — whatever the fetch then returns. -/
theorem claim_C4_theorem (pid i1 i2 i3 : String) (fetchR : FetchResp)
    (bfetch : BulkFetchResp) (dl : String) :
    fetchAfterThreePolls (BolRetailerAPI.request_all_offers ⟨202, pid⟩
      [⟨"PENDING", i1⟩, ⟨"PENDING", i2⟩, ⟨"SUCCESS", i3⟩] fetchR).1 ∧
    fetchAfterThreePolls (BolAdvertisingAPI.request_bulk_report ⟨202, pid⟩
      [⟨"PENDING", i1⟩, ⟨"PENDING", i2⟩, ⟨"SUCCESS", i3⟩] bfetch dl).1 := by
  have hpoll := pollLoop_spec [⟨"PENDING", i1⟩, ⟨"PENDING", i2⟩] ⟨"SUCCESS", i3⟩
    (by
      intro q hq
      simp only [List.mem_cons, List.not_mem_nil, or_false] at hq
      rcases hq with rfl | rfl <;> rfl)
    (by show ("SUCCESS" : String) ≠ "PENDING"; decide)
  simp only [List.cons_append, List.nil_append, List.length_cons, List.length_nil] at hpoll
  constructor
  · by_cases hf : fetchR.status = 200 <;>
      simp [BolRetailerAPI.request_all_offers, hpoll, hf, fetchAfterThreePolls,
        pollTrace, countPoll, countFetch]
  · by_cases hf : bfetch.status = 200 <;>
      simp [BolAdvertisingAPI.request_bulk_report, hpoll, hf, fetchAfterThreePolls,
        pollTrace, countPoll, countFetch]

/-- Claim C5, counterexample: when the bulk-report job terminates FAILURE,
`request_bulk_report` issues no fetch and returns None, but surfaces no
diagnostic at all — the trace is just the submit and the single poll. -/
theorem claim_C5_counterexample :
    BolAdvertisingAPI.request_bulk_report ⟨202, "pid"⟩ [⟨"FAILURE", "e"⟩]
      ⟨200, "u"⟩ "csv" =
      ([JobEvent.submit, JobEvent.poll], ReportResult.nothing) ∧
    countDiag (BolAdvertisingAPI.request_bulk_report ⟨202, "pid"⟩ [⟨"FAILURE", "e"⟩]
      ⟨200, "u"⟩ "csv").1 = 0 := by decide

/-- Claim C5, amended: when the polled job reaches a terminal status other
than SUCCESS, none of the three async operations issues a result fetch or a
download, none retries the job, and all return an absent result; but only
`request_all_offers` surfaces a diagnostic — `request_bulk_report` and
`request_campaigns_report` return silently with no diagnostic. -/
theorem claim_C5_theorem (pid : String) (ps : List ProcBody) (p : ProcBody)
    (fetchR : FetchResp) (bfetch : BulkFetchResp) (dl : String)
    (hps : ∀ q ∈ ps, q.status = "PENDING")
    (hp1 : p.status ≠ "PENDING") (hp2 : p.status ≠ "SUCCESS") :
    BolRetailerAPI.request_all_offers ⟨202, pid⟩ (ps ++ [p]) fetchR =
      (JobEvent.submit :: pollTrace ps.length ++
        [JobEvent.diag "failed to process offer export"], OffersResult.nothing) ∧
    BolAdvertisingAPI.request_bulk_report ⟨202, pid⟩ (ps ++ [p]) bfetch dl =
      (JobEvent.submit :: pollTrace ps.length, ReportResult.nothing) ∧
    BolAdvertisingAPIv10.request_campaigns_report ⟨202, pid⟩ (ps ++ [p]) bfetch dl =
      (JobEvent.submit :: pollTrace ps.length, ReportResult.nothing) ∧
    countFetch (BolRetailerAPI.request_all_offers ⟨202, pid⟩ (ps ++ [p]) fetchR).1 = 0 ∧
    countFetch (BolAdvertisingAPI.request_bulk_report
      ⟨202, pid⟩ (ps ++ [p]) bfetch dl).1 = 0 ∧
    countDownload (BolAdvertisingAPI.request_bulk_report
      ⟨202, pid⟩ (ps ++ [p]) bfetch dl).1 = 0 ∧
    countDiag (BolAdvertisingAPI.request_bulk_report
      ⟨202, pid⟩ (ps ++ [p]) bfetch dl).1 = 0 := by
  have hpoll := pollLoop_spec ps p hps hp1
  refine ⟨?_, ?_, ?_, ?_, ?_, ?_, ?_⟩ <;>
    simp [BolRetailerAPI.request_all_offers, BolAdvertisingAPI.request_bulk_report,
      BolAdvertisingAPIv10.request_campaigns_report, hpoll, hp2,
      countFetch, countDownload, countDiag, countFetch_append, countDownload_append,
      countFetch_pollTrace, countDownload_pollTrace, countDiag_pollTrace]

/-- Claim C5, witness: one PENDING poll followed by a FAILURE. -/
theorem claim_C5_witness :
    BolRetailerAPI.request_all_offers ⟨202, "pid"⟩
      [⟨"PENDING", "e1"⟩, ⟨"FAILURE", "e2"⟩] ⟨200, "csv"⟩ =
      (JobEvent.submit :: pollTrace 1 ++
        [JobEvent.diag "failed to process offer export"], OffersResult.nothing) ∧
    BolAdvertisingAPI.request_bulk_report ⟨202, "pid"⟩
      [⟨"PENDING", "e1"⟩, ⟨"FAILURE", "e2"⟩] ⟨200, "u"⟩ "csv" =
      (JobEvent.submit :: pollTrace 1, ReportResult.nothing) ∧
    BolAdvertisingAPIv10.request_campaigns_report ⟨202, "pid"⟩
      [⟨"PENDING", "e1"⟩, ⟨"FAILURE", "e2"⟩] ⟨200, "u"⟩ "csv" =
      (JobEvent.submit :: pollTrace 1, ReportResult.nothing) ∧
    countFetch (BolRetailerAPI.request_all_offers ⟨202, "pid"⟩
      [⟨"PENDING", "e1"⟩, ⟨"FAILURE", "e2"⟩] ⟨200, "csv"⟩).1 = 0 ∧
    countFetch (BolAdvertisingAPI.request_bulk_report ⟨202, "pid"⟩
      [⟨"PENDING", "e1"⟩, ⟨"FAILURE", "e2"⟩] ⟨200, "u"⟩ "csv").1 = 0 ∧
    countDownload (BolAdvertisingAPI.request_bulk_report ⟨202, "pid"⟩
      [⟨"PENDING", "e1"⟩, ⟨"FAILURE", "e2"⟩] ⟨200, "u"⟩ "csv").1 = 0 ∧
    countDiag (BolAdvertisingAPI.request_bulk_report ⟨202, "pid"⟩
      [⟨"PENDING", "e1"⟩, ⟨"FAILURE", "e2"⟩] ⟨200, "u"⟩ "csv").1 = 0 :=
  claim_C5_theorem "pid" [⟨"PENDING", "e1"⟩] ⟨"FAILURE", "e2"⟩ ⟨200, "csv"⟩ ⟨200, "u"⟩
    "csv" (by intro q hq; simp only [List.mem_singleton] at hq; rw [hq])
    (by decide) (by decide)

/-- Claim C9: when the submit request is answered with a status other than
202, each of the three async operations issues no status poll and no result
fetch, surfaces a diagnostic, and `request_all_offers` propagates the
original submit response to the caller (the advertising facades return
None). -/
theorem claim_C9_theorem (submit : SubmitResp) (polls : List ProcBody)
    (fetchR : FetchResp) (bfetch : BulkFetchResp) (dl : String)
    (hs : submit.status ≠ 202) :
    BolRetailerAPI.request_all_offers submit polls fetchR =
      ([JobEvent.submit, JobEvent.diag "failed to request offer export"],
        OffersResult.response submit) ∧
    BolAdvertisingAPI.request_bulk_report submit polls bfetch dl =
      ([JobEvent.submit, JobEvent.diag "failed to request campaign performance export"],
        ReportResult.nothing) ∧
    BolAdvertisingAPIv10.request_campaigns_report submit polls bfetch dl =
      ([JobEvent.submit, JobEvent.diag "failed to request campaign performance export"],
        ReportResult.nothing) ∧
    countPoll (BolRetailerAPI.request_all_offers submit polls fetchR).1 = 0 ∧
    countFetch (BolRetailerAPI.request_all_offers submit polls fetchR).1 = 0 ∧
    countPoll (BolAdvertisingAPI.request_bulk_report submit polls bfetch dl).1 = 0 ∧
    countFetch (BolAdvertisingAPI.request_bulk_report submit polls bfetch dl).1 = 0 ∧
    countPoll (BolAdvertisingAPIv10.request_campaigns_report
      submit polls bfetch dl).1 = 0 ∧
    countFetch (BolAdvertisingAPIv10.request_campaigns_report
      submit polls bfetch dl).1 = 0 := by
  refine ⟨?_, ?_, ?_, ?_, ?_, ?_, ?_, ?_, ?_⟩ <;>
    simp [BolRetailerAPI.request_all_offers, BolAdvertisingAPI.request_bulk_report,
      BolAdvertisingAPIv10.request_campaigns_report, hs, countPoll, countFetch]

/-- Claim C9, witness at a 400-rejected submit. -/
theorem claim_C9_witness :
    BolRetailerAPI.request_all_offers ⟨400, "pid"⟩ [] ⟨200, "csv"⟩ =
      ([JobEvent.submit, JobEvent.diag "failed to request offer export"],
        OffersResult.response ⟨400, "pid"⟩) ∧
    BolAdvertisingAPI.request_bulk_report ⟨400, "pid"⟩ [] ⟨200, "u"⟩ "csv" =
      ([JobEvent.submit, JobEvent.diag "failed to request campaign performance export"],
        ReportResult.nothing) ∧
    BolAdvertisingAPIv10.request_campaigns_report ⟨400, "pid"⟩ [] ⟨200, "u"⟩ "csv" =
      ([JobEvent.submit, JobEvent.diag "failed to request campaign performance export"],
        ReportResult.nothing) ∧
    countPoll (BolRetailerAPI.request_all_offers ⟨400, "pid"⟩ [] ⟨200, "csv"⟩).1 = 0 ∧
    countFetch (BolRetailerAPI.request_all_offers ⟨400, "pid"⟩ [] ⟨200, "csv"⟩).1 = 0 ∧
    countPoll (BolAdvertisingAPI.request_bulk_report
      ⟨400, "pid"⟩ [] ⟨200, "u"⟩ "csv").1 = 0 ∧
    countFetch (BolAdvertisingAPI.request_bulk_report
      ⟨400, "pid"⟩ [] ⟨200, "u"⟩ "csv").1 = 0 ∧
    countPoll (BolAdvertisingAPIv10.request_campaigns_report
      ⟨400, "pid"⟩ [] ⟨200, "u"⟩ "csv").1 = 0 ∧
    countFetch (BolAdvertisingAPIv10.request_campaigns_report
      ⟨400, "pid"⟩ [] ⟨200, "u"⟩ "csv").1 = 0 :=
  claim_C9_theorem ⟨400, "pid"⟩ [] ⟨200, "csv"⟩ ⟨200, "u"⟩ "csv"
    (by show (400 : Nat) ≠ 202; decide)

/-- Claim C6, counterexample: for the ratings list with entries (rating 5,
count 3) and (rating 1, count 1), the returned dictionary is not the
mapping from 5 to 3 and 1 to 1 — it has no key 5 at all; its actual keys
are the strings `Rating` and `Count`, holding the two parallel lists. -/
theorem claim_C6_counterexample :
    BolRetailerAPI.request_product_ratings 200 [⟨5, 3⟩, ⟨1, 1⟩] ≠
      [(PyKey.int 5, PyVal.int 3), (PyKey.int 1, PyVal.int 1)] ∧
    (BolRetailerAPI.request_product_ratings 200 [⟨5, 3⟩, ⟨1, 1⟩]).lookup
      (PyKey.int 5) = none ∧
    BolRetailerAPI.request_product_ratings 200 [⟨5, 3⟩, ⟨1, 1⟩] =
      [(PyKey.str "Rating", PyVal.list [5, 1]),
       (PyKey.str "Count", PyVal.list [3, 1])] := by decide

theorem ratings_foldl (ratings : List RatingEntry) : ∀ acc : List Int × List Int,
    ratings.foldl BolRetailerAPI.ratingsStep acc =
      (acc.1 ++ ratings.map RatingEntry.rating, acc.2 ++ ratings.map RatingEntry.count) := by
  induction ratings with
  | nil => intro acc; simp
  | cons r rs ih =>
    intro acc
    simp [BolRetailerAPI.ratingsStep, ih, List.append_assoc]

/-- Claim C6, amended: for every ratings response with a ratings list, the
dictionary returned by `request_product_ratings` has exactly the two keys
`Rating` and `Count`, holding respectively the listed rating values and
their counts as two parallel lists in listed order (not a mapping from each
rating value to its count). -/
theorem claim_C6_theorem (ratings : List RatingEntry) :
    BolRetailerAPI.request_product_ratings 200 ratings =
      [(PyKey.str "Rating", PyVal.list (ratings.map RatingEntry.rating)),
       (PyKey.str "Count", PyVal.list (ratings.map RatingEntry.count))] := by
  simp [BolRetailerAPI.request_product_ratings, ratings_foldl]

/-- Claim C7: for a spreadsheet table of six preamble rows, a header row at
row index six and N data rows, the parsed invoice specification has the
header row's cells as column names and exactly the N data rows, the
preamble discarded. -/
theorem claim_C7_theorem (cols r0 r1 r2 r3 r4 r5 hdr : List String)
    (rows : List (List String)) :
    BolRetailerAPI.request_invoice_specification 200
      ⟨cols, r0 :: r1 :: r2 :: r3 :: r4 :: r5 :: hdr :: rows⟩ =
      some ⟨hdr, rows⟩ := by
  simp [BolRetailerAPI.request_invoice_specification, List.get?]

theorem insightsLoop_DAY (country : String) (entries : List PeriodEntry) :
    insightsLoop "DAY" country entries =
      some (entries.map (fun e => dayLabel e.period), valuesOf country entries) := by
  induction entries with
  | nil => simp [insightsLoop, valuesOf]
  | cons e es ih => simp [insightsLoop, formatDate, valuesOf, ih]

theorem insightsLoop_MONTH (country : String) (entries : List PeriodEntry) :
    insightsLoop "MONTH" country entries =
      some (entries.map (fun e => monthLabel e.period), valuesOf country entries) := by
  induction entries with
  | nil => simp [insightsLoop, valuesOf]
  | cons e es ih => simp [insightsLoop, formatDate, valuesOf, ih]

/-- Claim C8: on a 200 insights response, `period = DAY` yields the series
of day-month-year labels, `period = MONTH` yields month-year labels (both
paired with the collected values under the name-dependent value key), and
`no_periods = 1` yields the bare first collected value instead of the
two-sequence structure. -/
theorem claim_C8_theorem :
    (∀ (name country : String) (n : Nat) (entries : List PeriodEntry), n ≠ 1 →
      BolRetailerAPI.request_offer_insights name "DAY" n country 200 entries =
        InsightsResult.series "Date"
          (if name = "PRODUCT_VISITS" then "Visits" else "Buy-Box %")
          (entries.map (fun e => dayLabel e.period)) (valuesOf country entries)) ∧
    (∀ (name country : String) (n : Nat) (entries : List PeriodEntry), n ≠ 1 →
      BolRetailerAPI.request_offer_insights name "MONTH" n country 200 entries =
        InsightsResult.series "Date"
          (if name = "PRODUCT_VISITS" then "Visits" else "Buy-Box %")
          (entries.map (fun e => monthLabel e.period)) (valuesOf country entries)) ∧
    (∀ (name period country : String) (entries : List PeriodEntry) (v : Int)
      (vs : List Int), (period = "DAY" ∨ period = "MONTH") →
      valuesOf country entries = v :: vs →
      BolRetailerAPI.request_offer_insights name period 1 country 200 entries =
        InsightsResult.scalar v) := by
  refine ⟨?_, ?_, ?_⟩
  · intro name country n entries hn
    by_cases hname : name = "PRODUCT_VISITS" <;>
      simp [BolRetailerAPI.request_offer_insights, insightsLoop_DAY, hn, hname]
  · intro name country n entries hn
    by_cases hname : name = "PRODUCT_VISITS" <;>
      simp [BolRetailerAPI.request_offer_insights, insightsLoop_MONTH, hn, hname]
  · intro name period country entries v vs hper hv
    rcases hper with rfl | rfl
    · simp [BolRetailerAPI.request_offer_insights, insightsLoop_DAY, hv]
    · simp [BolRetailerAPI.request_offer_insights, insightsLoop_MONTH, hv]

/-- Claim C8, witness at concrete one-entry responses. -/
theorem claim_C8_witness :
    BolRetailerAPI.request_offer_insights "PRODUCT_VISITS" "DAY" 2 "NL" 200
      [⟨⟨1, 2, 2024⟩, [⟨"NL", 7⟩]⟩] =
      InsightsResult.series "Date" "Visits" [dayLabel ⟨1, 2, 2024⟩] [7] ∧
    BolRetailerAPI.request_offer_insights "BUY_BOX_PERCENTAGE" "MONTH" 2 "NL" 200
      [⟨⟨1, 2, 2024⟩, [⟨"NL", 7⟩]⟩] =
      InsightsResult.series "Date" "Buy-Box %" [monthLabel ⟨1, 2, 2024⟩] [7] ∧
    BolRetailerAPI.request_offer_insights "PRODUCT_VISITS" "DAY" 1 "NL" 200
      [⟨⟨1, 2, 2024⟩, [⟨"NL", 7⟩]⟩] = InsightsResult.scalar 7 :=
  ⟨claim_C8_theorem.1 "PRODUCT_VISITS" "NL" 2 [⟨⟨1, 2, 2024⟩, [⟨"NL", 7⟩]⟩] (by decide),
   claim_C8_theorem.2.1 "BUY_BOX_PERCENTAGE" "NL" 2 [⟨⟨1, 2, 2024⟩, [⟨"NL", 7⟩]⟩]
     (by decide),
   claim_C8_theorem.2.2 "PRODUCT_VISITS" "DAY" "NL" [⟨⟨1, 2, 2024⟩, [⟨"NL", 7⟩]⟩] 7 []
     (Or.inl rfl) (by decide)⟩

/-- Claim C10: `period = WEEK` is allowed by the declared parameter domain,
but the date-formatting chain handles only DAY, MONTH and YEAR, so on any
200 response with at least one period entry the loop reads the unassigned
`date_str` and the call fails with an unbound-variable error instead of
returning the two sequences. -/
theorem claim_C10_theorem (name country : String) (n : Nat) (e : PeriodEntry)
    (es : List PeriodEntry) :
    BolRetailerAPI.request_offer_insights name "WEEK" n country 200 (e :: es) =
      InsightsResult.nameError := by
  have h1 : ¬ ("WEEK" : String) = "DAY" := by decide
  have h2 : ¬ ("WEEK" : String) = "MONTH" := by decide
  have h3 : ¬ ("WEEK" : String) = "YEAR" := by decide
  simp [BolRetailerAPI.request_offer_insights, insightsLoop, formatDate, h1, h2, h3]
